import Mathlib

/-!
Verification of the CloudEagle AI Integration Builder (streamlit_app.py).

The development embeds the decision logic of the script: the Python string
heuristics (`extract_insights`, `analyze_code_quality`), the generation
orchestrator (`generate_integration_code` with its demo-mode fallback
`generate_demo_code`), and the five-stage gated workflow driven by the
Streamlit button handlers in `main`.

Python strings are modelled as `List Char`; the Python `in` operator on
strings is `pyContains`, `str.lower` is `pyLower`, `str.count` is `pyCount`,
and slicing `code[:1000]` is `List.take 1000`.  The floating-point quality
score is modelled exactly over `ℚ` (all values involved are small rationals).
Session state is a record; each Streamlit button handler becomes an action of
an explicit transition function `applyAct`, which is the identity when the
corresponding widget is not rendered (wrong stage) or is disabled.  The
external text-generation call is an environment value: either a returned text
or an exception.
-/

set_option maxRecDepth 8000

namespace CloudEagle

/-- Python substring test `needle in hay` on strings (character lists):
true iff `needle` occurs contiguously in `hay` (an empty needle always
occurs). -/
def pyContains (needle : List Char) : List Char → Bool
  | [] => needle.isEmpty
  | c :: t => needle.isPrefixOf (c :: t) || pyContains needle t

/-- Python `str.lower` (ASCII letters suffice: every text involved is ASCII). -/
def pyLower (s : List Char) : List Char := s.map Char.toLower

/-- Auxiliary scanner for Python `str.count`: `skip` is the number of
characters still to be skipped after a non-overlapping match. -/
def pyCountAux (needle : List Char) : Nat → List Char → Nat
  | _ + 1, [] => 0
  | 0, [] => if needle.isEmpty then 1 else 0
  | n + 1, _ :: t => pyCountAux needle n t
  | 0, c :: t =>
    if needle.isPrefixOf (c :: t) then
      1 + pyCountAux needle (needle.length - 1) t
    else
      pyCountAux needle 0 t

/-- Python `hay.count(needle)`: number of non-overlapping occurrences. -/
def pyCount (needle hay : List Char) : Nat := pyCountAux needle 0 hay

/-- Verbatim segment of the fixed demo-code string from generate_demo_code. -/
def demoSeg0 : String :=
  "\"\"\"\n"
  ++ "Calendly API Integration - Production Ready\n"
  ++ "Generated by CloudEagle AI Integration Builder\n"
  ++ "\"\"\"\n"
  ++ "\n"
  ++ "import requests\n"
  ++ "from typing import Dict, List, Optional\n"
  ++ "import os\n"
  ++ "import time\n"
  ++ "import "

/-- Verbatim segment of the fixed demo-code string from generate_demo_code. -/
def demoSeg1 : String :=
  "\n"
  ++ "from datetime import datetime, timedelta\n"
  ++ "\n"
  ++ "# Configure logging\n"
  ++ "logging.basicConfig(\n"
  ++ "    level=logging.INFO,\n"
  ++ "    format=\x27%(asctime)s - %(name)s - %(levelname)s - %(message)s\x27\n"
  ++ ")\n"
  ++ "logger = logging.getLogger(__name__)\n"
  ++ "\n"
  ++ "\n"
  ++ "class CalendlyAuth"

/-- Verbatim segment of the fixed demo-code string from generate_demo_code. -/
def demoSeg2 : String :=
  "\n"
  ++ "    \"\"\"Handles OAuth 2.0 authentication for Calendly API\"\"\"\n"
  ++ "    \n"
  ++ "    def __init__(self, client_id: str, client_secret: str):\n"
  ++ "        \"\"\"\n"
  ++ "        Initialize Calendly authentication\n"
  ++ "        \n"
  ++ "        Args:\n"
  ++ "            client_id: OAuth client ID from Calendly\n"
  ++ "            client_secret: OAuth client secret from Calendly\n"
  ++ "        \"\"\"\n"
  ++ "        self.client_id = client_id\n"
  ++ "        self.client_secret = client_secret\n"
  ++ "        self.access_token: Optional[str] = None\n"
  ++ "        self.refresh_token: Optional[str] = None\n"
  ++ "        self.token_expires_at: Optional[datetime] = None\n"
  ++ "        self.base_auth_url = \"https://auth.calendly.com/oauth\"\n"
  ++ "        \n"
  ++ "        logger.info(\"Calendly authentication initialized\")\n"
  ++ "    \n"
  ++ "    def get_authorization_url(self, redirect_uri: str) -> str:\n"
  ++ "        \"\"\"\n"
  ++ "        Generate OAuth authorization URL\n"
  ++ "        \n"
  ++ "        Args:\n"
  ++ "            redirect_uri: Callback URL after authorization\n"
  ++ "            \n"
  ++ "        Returns:\n"
  ++ "            Authorization URL for user to visit\n"
  ++ "        \"\"\"\n"
  ++ "        return (\n"
  ++ "            f\"\x7bself.base_auth_url\x7d/authorize?\"\n"
  ++ "            f\"client_id=\x7bself.client_id\x7d&\"\n"
  ++ "            f\"redirect_uri=\x7bredirect_uri\x7d&\"\n"
  ++ "            f\"response_type=code\"\n"
  ++ "        )\n"
  ++ "    \n"
  ++ "    def exchange_code_for_token(self, code: str, redirect_uri: str) -> Dict:\n"
  ++ "        \"\"\"\n"
  ++ "        Exchange authorization code for access token\n"
  ++ "        \n"
  ++ "        Args:\n"
  ++ "            code: Authorization code from OAuth callback\n"
  ++ "            redirect_uri: Same redirect URI used in authorization\n"
  ++ "            \n"
  ++ "        Returns:\n"
  ++ "            Token response with access_token and refresh_token\n"
  ++ "        \"\"\"\n"
  ++ "        "

/-- Verbatim segment of the fixed demo-code string from generate_demo_code. -/
def demoSeg3 : String :=
  "\n"
  ++ "            response = requests.post(\n"
  ++ "                f\"\x7bself.base_auth_url\x7d/token\",\n"
  ++ "                data=\x7b\n"
  ++ "                    \"grant_type\": \"authorization_code\",\n"
  ++ "                    \"code\": code,\n"
  ++ "                    \"redirect_uri\": redirect_uri,\n"
  ++ "                    \"client_id\": self.client_id,\n"
  ++ "                    \"client_secret\": self.client_secret\n"
  ++ "                \x7d,\n"
  ++ "                timeout=30\n"
  ++ "            )\n"
  ++ "            response.raise_for_status()\n"
  ++ "            \n"
  ++ "            token_data = response.json()\n"
  ++ "            self.access_token = token_data.get(\"access_token\")\n"
  ++ "            self.refresh_token = token_data.get(\"refresh_token\")\n"
  ++ "            \n"
  ++ "            # Calculate expiration (Calendly tokens expire in 2 hours)\n"
  ++ "            expires_in = token_data.get(\"expires_in\", 7200)\n"
  ++ "            self.token_expires_at = datetime.now() + timedelta(seconds=expires_in)\n"
  ++ "            \n"
  ++ "            logger.info(\"Successfully obtained access token\")\n"
  ++ "            return token_data\n"
  ++ "            \n"
  ++ "        "

/-- Verbatim segment of the fixed demo-code string from generate_demo_code. -/
def demoSeg4 : String :=
  " requests.exceptions.RequestException as e:\n"
  ++ "            logger.error(f\"Token exchange failed: \x7bstr(e)\x7d\")\n"
  ++ "            raise\n"
  ++ "    \n"
  ++ "    def refresh_access_token(self) -> Dict:\n"
  ++ "        \"\"\"\n"
  ++ "        Refresh expired access token using refresh token\n"
  ++ "        \n"
  ++ "        Returns:\n"
  ++ "            New token response\n"
  ++ "        \"\"\"\n"
  ++ "        if not self.refresh_token:\n"
  ++ "            raise ValueError(\"No refresh token available\")\n"
  ++ "        \n"
  ++ "        try:\n"
  ++ "            response = requests.post(\n"
  ++ "                f\"\x7bself.base_auth_url\x7d/token\",\n"
  ++ "                data=\x7b\n"
  ++ "                    \"grant_type\": \"refresh_token\",\n"
  ++ "                    \"refresh_token\": self.refresh_token,\n"
  ++ "                    \"client_id\": self.client_id,\n"
  ++ "                    \"client_secret\": self.client_secret\n"
  ++ "                \x7d,\n"
  ++ "                timeout=30\n"
  ++ "            )\n"
  ++ "            response.raise_for_status()\n"
  ++ "            \n"
  ++ "            token_data = response.json()\n"
  ++ "            self.access_token = token_data.get(\"access_token\")\n"
  ++ "            \n"
  ++ "            # Update expiration\n"
  ++ "            expires_in = token_data.get(\"expires_in\", 7200)\n"
  ++ "            self.token_expires_at = datetime.now() + timedelta(seconds=expires_in)\n"
  ++ "            \n"
  ++ "            logger.info(\"Access token refreshed successfully\")\n"
  ++ "            return token_data\n"
  ++ "            \n"
  ++ "        except requests.exceptions.RequestException as e:\n"
  ++ "            logger.error(f\"Token refresh failed: \x7bstr(e)\x7d\")\n"
  ++ "            raise\n"
  ++ "    \n"
  ++ "    def get_valid_token(self) -> str:\n"
  ++ "        \"\"\"\n"
  ++ "        Get valid access token, refreshing if necessary\n"
  ++ "        \n"
  ++ "        Returns:\n"
  ++ "            Valid access token\n"
  ++ "        \"\"\"\n"
  ++ "        # Check if token needs refresh (refresh 5 minutes before expiry)\n"
  ++ "        if self.token_expires_at:\n"
  ++ "            time_until_expiry = (self.token_expires_at - datetime.now()).total_seconds()\n"
  ++ "            if time_until_expiry < 300:  # Less than 5 minutes\n"
  ++ "                logger.info(\"Token expiring soon, refreshing...\")\n"
  ++ "                self.refresh_access_token()\n"
  ++ "        \n"
  ++ "        return self.access_token\n"
  ++ "\n"
  ++ "\n"
  ++ "class CalendlyClient:\n"
  ++ "    \"\"\"Main Calendly API client\"\"\"\n"
  ++ "    \n"
  ++ "    def __init__(self, auth: CalendlyAuth):\n"
  ++ "        \"\"\"\n"
  ++ "        Initialize Calendly client\n"
  ++ "        \n"
  ++ "        Args:\n"
  ++ "            auth: CalendlyAuth instance with valid credentials\n"
  ++ "        \"\"\"\n"
  ++ "        self.auth = auth\n"
  ++ "        self.base_url = \"https://api.calendly.com\"\n"
  ++ "        self.session = requests.Session()\n"
  ++ "        self.session.headers.update(\x7b\n"
  ++ "            \"Content-Type\": \"application/json\"\n"
  ++ "        \x7d)\n"
  ++ "        \n"
  ++ "        logger.info(\"Calendly client initialized\")\n"
  ++ "    \n"
  ++ "    def _make_request(\n"
  ++ "        self, \n"
  ++ "        method: str, \n"
  ++ "        endpoint: str, \n"
  ++ "        **kwargs\n"
  ++ "    ) -> requests.Response:\n"
  ++ "        \"\"\"\n"
  ++ "        Make authenticated API request with retry logic\n"
  ++ "        \n"
  ++ "        Args:\n"
  ++ "            method: HTTP method (GET, POST, etc.)\n"
  ++ "            endpoint: API endpoint path\n"
  ++ "            **kwargs: Additional request parameters\n"
  ++ "            \n"
  ++ "        Returns:\n"
  ++ "            Response object\n"
  ++ "        \"\"\"\n"
  ++ "        url = f\"\x7bself.base_url\x7d/\x7bendpoint.lstrip(\x27/\x27)\x7d\"\n"
  ++ "        \n"
  ++ "        # Add authorization header\n"
  ++ "        token = self.auth.get_valid_token()\n"
  ++ "        headers = kwargs.pop(\x27headers\x27, \x7b\x7d)\n"
  ++ "        headers[\x27Authorization\x27] = f\x27Bearer \x7btoken\x7d\x27\n"
  ++ "        \n"
  ++ "        # Retry logic with exponential backoff\n"
  ++ "        max_retries = 3\n"
  ++ "        for attempt in range(max_retries):\n"
  ++ "            try:\n"
  ++ "                response = self.session.request(\n"
  ++ "                    method=method,\n"
  ++ "                    url=url,\n"
  ++ "                    headers=headers,\n"
  ++ "                    timeout=30,\n"
  ++ "                    **kwargs\n"
  ++ "                )\n"
  ++ "                \n"
  ++ "                # Handle rate limiting\n"
  ++ "                if response.status_code == "

/-- Verbatim segment of the fixed demo-code string from generate_demo_code. -/
def demoSeg5 : String :=
  ":\n"
  ++ "                    retry_after = int(response.headers.get(\x27Retry-After\x27, 60))\n"
  ++ "                    logger.warning(f\"Rate limited. Waiting \x7bretry_after\x7d seconds...\")\n"
  ++ "                    time.sleep(retry_after)\n"
  ++ "                    continue\n"
  ++ "                \n"
  ++ "                response.raise_for_status()\n"
  ++ "                return response\n"
  ++ "                \n"
  ++ "            except requests.exceptions.RequestException as e:\n"
  ++ "                if attempt < max_retries - 1:\n"
  ++ "                    wait_time = 2 ** attempt  # Exponential backoff\n"
  ++ "                    logger.warning(f\"Request failed. Retrying in \x7bwait_time\x7ds...\")\n"
  ++ "                    time.sleep(wait_time)\n"
  ++ "                else:\n"
  ++ "                    logger.error(f\"Request failed after \x7bmax_retries\x7d attempts: \x7bstr(e)\x7d\")\n"
  ++ "                    raise\n"
  ++ "    \n"
  ++ "    def get_current_user(self) -> Dict:\n"
  ++ "        \"\"\"\n"
  ++ "        Get current authenticated user\n"
  ++ "        \n"
  ++ "        Returns:\n"
  ++ "            User object\n"
  ++ "        \"\"\"\n"
  ++ "        response = self._make_request(\x27GET\x27, \x27/users/me\x27)\n"
  ++ "        return response.json()\n"
  ++ "    \n"
  ++ "    def list_users(self, organization_uri: str, max_results: int = 100) -> List[Dict]:\n"
  ++ "        \"\"\"\n"
  ++ "        List all users in organization with automatic "

/-- Verbatim segment of the fixed demo-code string from generate_demo_code. -/
def demoSeg6 : String :=
  "\n"
  ++ "        \n"
  ++ "        Args:\n"
  ++ "            organization_uri: Organization URI\n"
  ++ "            max_results: Maximum number of results to return\n"
  ++ "            \n"
  ++ "        Returns:\n"
  ++ "            List of user objects\n"
  ++ "        \"\"\"\n"
  ++ "        all_users = []\n"
  ++ "        page_token = None\n"
  ++ "        \n"
  ++ "        while len(all_users) < max_results:\n"
  ++ "            params = \x7b\n"
  ++ "                \x27organization\x27: organization_uri,\n"
  ++ "                \x27count\x27: min(100, max_results - len(all_users))\n"
  ++ "            \x7d\n"
  ++ "            \n"
  ++ "            if page_token:\n"
  ++ "                params[\x27page_token\x27] = page_token\n"
  ++ "            \n"
  ++ "            response = self._make_request(\x27GET\x27, \x27/users\x27, params=params)\n"
  ++ "            data = response.json()\n"
  ++ "            \n"
  ++ "            users = data.get(\x27collection\x27, [])\n"
  ++ "            all_users.extend(users)\n"
  ++ "            \n"
  ++ "            # Check for next page\n"
  ++ "            pagination = data.get(\x27pagination\x27, \x7b\x7d)\n"
  ++ "            page_token = pagination.get(\x27next_page_token\x27)\n"
  ++ "            \n"
  ++ "            if not page_token or len(all_users) >= max_results:\n"
  ++ "                break\n"
  ++ "            \n"
  ++ "            logger.info(f\"Fetched \x7blen(all_users)\x7d users so far...\")\n"
  ++ "        \n"
  ++ "        logger.info(f\"Total users retrieved: \x7blen(all_users)\x7d\")\n"
  ++ "        return all_users[:max_results]\n"
  ++ "    \n"
  ++ "    def get_event_types(self, user_uri: str) -> List[Dict]:\n"
  ++ "        \"\"\"\n"
  ++ "        Get event types for a user\n"
  ++ "        \n"
  ++ "        Args:\n"
  ++ "            user_uri: User URI\n"
  ++ "            \n"
  ++ "        Returns:\n"
  ++ "            List of event type objects\n"
  ++ "        \"\"\"\n"
  ++ "        all_event_types = []\n"
  ++ "        page_token = None\n"
  ++ "        \n"
  ++ "        while True:\n"
  ++ "            params = \x7b\x27user\x27: user_uri, \x27count\x27: 100\x7d\n"
  ++ "            \n"
  ++ "            if page_token:\n"
  ++ "                params[\x27page_token\x27] = page_token\n"
  ++ "            \n"
  ++ "            response = self._make_request(\x27GET\x27, \x27/event_types\x27, params=params)\n"
  ++ "            data = response.json()\n"
  ++ "            \n"
  ++ "            event_types = data.get(\x27collection\x27, [])\n"
  ++ "            all_event_types.extend(event_types)\n"
  ++ "            \n"
  ++ "            # Check for next page\n"
  ++ "            pagination = data.get(\x27pagination\x27, \x7b\x7d)\n"
  ++ "            page_token = pagination.get(\x27next_page_token\x27)\n"
  ++ "            \n"
  ++ "            if not page_token:\n"
  ++ "                break\n"
  ++ "        \n"
  ++ "        logger.info(f\"Retrieved \x7blen(all_event_types)\x7d event types\")\n"
  ++ "        return all_event_types\n"
  ++ "    \n"
  ++ "    def get_scheduled_events(\n"
  ++ "        self, \n"
  ++ "        organization_uri: str,\n"
  ++ "        min_start_time: Optional[str] = None,\n"
  ++ "        max_start_time: Optional[str] = None\n"
  ++ "    ) -> List[Dict]:\n"
  ++ "        \"\"\"\n"
  ++ "        Get scheduled events with optional date filtering\n"
  ++ "        \n"
  ++ "        Args:\n"
  ++ "            organization_uri: Organization URI\n"
  ++ "            min_start_time: Filter events after this time (ISO 8601)\n"
  ++ "            max_start_time: Filter events before this time (ISO 8601)\n"
  ++ "            \n"
  ++ "        Returns:\n"
  ++ "            List of event objects\n"
  ++ "        \"\"\"\n"
  ++ "        all_events = []\n"
  ++ "        page_token = None\n"
  ++ "        \n"
  ++ "        while True:\n"
  ++ "            params = \x7b\n"
  ++ "                \x27organization\x27: organization_uri,\n"
  ++ "                \x27count\x27: 100\n"
  ++ "            \x7d\n"
  ++ "            \n"
  ++ "            if min_start_time:\n"
  ++ "                params[\x27min_start_time\x27] = min_start_time\n"
  ++ "            if max_start_time:\n"
  ++ "                params[\x27max_start_time\x27] = max_start_time\n"
  ++ "            if page_token:\n"
  ++ "                params[\x27page_token\x27] = page_token\n"
  ++ "            \n"
  ++ "            response = self._make_request(\x27GET\x27, \x27/scheduled_events\x27, params=params)\n"
  ++ "            data = response.json()\n"
  ++ "            \n"
  ++ "            events = data.get(\x27collection\x27, [])\n"
  ++ "            all_events.extend(events)\n"
  ++ "            \n"
  ++ "            # Check for next page\n"
  ++ "            pagination = data.get(\x27pagination\x27, \x7b\x7d)\n"
  ++ "            page_token = pagination.get(\x27next_page_token\x27)\n"
  ++ "            \n"
  ++ "            if not page_token:\n"
  ++ "                break\n"
  ++ "        \n"
  ++ "        logger.info(f\"Retrieved \x7blen(all_events)\x7d scheduled events\")\n"
  ++ "        return all_events\n"
  ++ "\n"
  ++ "\n"
  ++ "# Example usage\n"
  ++ "if __name__ == \"__main__\":\n"
  ++ "    # Initialize from environment variables (never "

/-- Verbatim segment of the fixed demo-code string from generate_demo_code. -/
def demoSeg7 : String :=
  "!)\n"
  ++ "    client_id = os.environ.get(\"CALENDLY_CLIENT_ID\")\n"
  ++ "    client_secret = os.environ.get(\"CALENDLY_CLIENT_SECRET\")\n"
  ++ "    \n"
  ++ "    if not client_id or not client_secret:\n"
  ++ "        raise ValueError(\"Missing CALENDLY_CLIENT_ID or CALENDLY_CLIENT_SECRET\")\n"
  ++ "    \n"
  ++ "    # Set up authentication\n"
  ++ "    auth = CalendlyAuth(client_id=client_id, client_secret=client_secret)\n"
  ++ "    \n"
  ++ "    # For OAuth flow, you would:\n"
  ++ "    # 1. Redirect user to: auth.get_authorization_url(redirect_uri)\n"
  ++ "    # 2. Handle callback and exchange code\n"
  ++ "    # auth.exchange_code_for_token(code, redirect_uri)\n"
  ++ "    \n"
  ++ "    # Create client\n"
  ++ "    client = CalendlyClient(auth=auth)\n"
  ++ "    \n"
  ++ "    # Get current user\n"
  ++ "    user = client.get_current_user()\n"
  ++ "    print(f\"Authenticated as: \x7buser[\x27resource\x27][\x27name\x27]\x7d\")\n"
  ++ "    \n"
  ++ "    # List users in organization\n"
  ++ "    org_uri = user[\x27resource\x27][\x27current_organization\x27]\n"
  ++ "    users = client.list_users(organization_uri=org_uri, max_results=50)\n"
  ++ "    print(f\"Found \x7blen(users)\x7d users\")\n"
  ++ "    \n"
  ++ "    # Get scheduled events\n"
  ++ "    events = client.get_scheduled_events(organization_uri=org_uri)\n"
  ++ "    print(f\"Found \x7blen(events)\x7d scheduled events\")\n"

/-- Character list of the full fixed demo code text (the segments concatenated
restore the source string verbatim; splits expose the substrings the quality
checks look for). -/

def demoCodeList : List Char :=
  demoSeg0.data ++ ("logging".data ++ (demoSeg1.data ++ (":".data ++ (demoSeg2.data ++ ("try:".data ++ (demoSeg3.data ++ ("except".data ++ (demoSeg4.data ++ ("429".data ++ (demoSeg5.data ++ ("pagination".data ++ (demoSeg6.data ++ ("hardcode".data ++ (demoSeg7.data))))))))))))))

/-- Metric value stored for a passing check. -/
def passMark : List Char := "✓ Passed".data

/-- Metric value stored for a failing check. -/
def warnMark : List Char := "⚠️ Warning".data

/-- Insight line for the oauth marker. -/
def insOAuth : List Char := "• Detected OAuth 2.0 with refresh token flow".data

/-- Insight line for the cursor marker. -/
def insCursor : List Char := "• Pagination uses cursor-based method".data

/-- Insight line for the offset marker. -/
def insOffset : List Char := "• Pagination uses offset-based method".data

/-- Insight line for the rate-limit marker. -/
def insRateLimit : List Char := "• Rate limiting implemented with backoff".data

/-- Insight line for the retry marker. -/
def insRetry : List Char := "• Automatic retry logic included".data

/-- Insight line reporting the retrieval-method count (the f-string
`f"• Found {endpoint_count} data retrieval methods"`). -/
def insCount (n : Nat) : List Char :=
  "• Found ".data ++ (Nat.repr n).data ++ " data retrieval methods".data

/-- Fixed insight list stored by generate_demo_code. -/
def demoInsights : List (List Char) :=
  ["• Detected OAuth 2.0 with refresh token flow".data,
   "• Found 12 relevant endpoints for user data".data,
   "• Pagination uses cursor-based method".data,
   "• Rate limit: 500 requests/minute".data]

/-- Embedding of `generate_demo_code(api_doc_url, auth_method)`: it ignores
both parameters and returns the fixed demo code text, after storing the fixed
insight list in the session (modelled by returning the pair
text-and-insights). -/
def generate_demo_code (api_doc_url auth_method : List Char) :
    List Char × List (List Char) :=
  (demoCodeList, demoInsights)

/-- Embedding of `extract_insights(code, api_url)`: sequential appends of the
marker lines, in the fixed check order, followed by the retrieval-method
count line. -/
def extract_insights (code api_url : List Char) : List (List Char) :=
  let endpoint_count := pyCount "def get_".data code + pyCount "def list_".data code
  (if pyContains "OAuth".data code || pyContains "oauth".data code then [insOAuth] else [])
  ++ ((if pyContains "cursor".data (pyLower code) then [insCursor] else [])
  ++ ((if pyContains "offset".data (pyLower code) then [insOffset] else [])
  ++ ((if pyContains "rate_limit".data (pyLower code) || pyContains "RateLimit".data code then [insRateLimit] else [])
  ++ ((if pyContains "retry".data (pyLower code) then [insRetry] else [])
  ++ (if endpoint_count > 0 then [insCount endpoint_count] else [])))))

/-- Condition of the security metric in `analyze_code_quality`:
`"os.environ" in code and "hardcode" not in code.lower()`. -/
def securityCheck (code : List Char) : Bool :=
  pyContains "os.environ".data code && !(pyContains "hardcode".data (pyLower code))

/-- Condition of the error_handling metric: `"try:" in code and "except" in code`. -/
def errorHandlingCheck (code : List Char) : Bool :=
  pyContains "try:".data code && pyContains "except".data code

/-- Condition of the pagination metric:
`"pagination" in code.lower() or "cursor" in code.lower()`. -/
def paginationCheck (code : List Char) : Bool :=
  pyContains "pagination".data (pyLower code) || pyContains "cursor".data (pyLower code)

/-- Condition of the rate_limiting metric:
`"rate_limit" in code.lower() or "429" in code`. -/
def rateLimitingCheck (code : List Char) : Bool :=
  pyContains "rate_limit".data (pyLower code) || pyContains "429".data code

/-- Condition of the logging metric: `"logging" in code.lower() or "logger" in code`. -/
def loggingCheck (code : List Char) : Bool :=
  pyContains "logging".data (pyLower code) || pyContains "logger".data code

/-- Condition of the best_practices metric:
`"type hints" in code or ":" in code[:1000]`. -/
def bestPracticesCheck (code : List Char) : Bool :=
  pyContains "type hints".data code || pyContains ":".data (code.take 1000)

/-- Embedding of `analyze_code_quality(code)`: the ordered metric dictionary
(name, status string) and the score `(passed / 6) * 10`, modelled exactly
over the rationals. -/
def analyze_code_quality (code : List Char) :
    List (List Char × List Char) × ℚ :=
  let metrics : List (List Char × List Char) :=
    [("security".data, if securityCheck code then passMark else warnMark),
     ("error_handling".data, if errorHandlingCheck code then passMark else warnMark),
     ("pagination".data, if paginationCheck code then passMark else warnMark),
     ("rate_limiting".data, if rateLimitingCheck code then passMark else warnMark),
     ("logging".data, if loggingCheck code then passMark else warnMark),
     ("best_practices".data, if bestPracticesCheck code then passMark else warnMark)]
  let passed := metrics.countP (fun m => pyContains "✓".data m.2)
  (metrics, ((passed : ℚ) / 6) * 10)

deriving instance DecidableEq for Except

/-- Environment of one generation attempt: whether `st.secrets` holds
ANTHROPIC_API_KEY, and the outcome of the external generation call
(returned text, or an exception of the try block). -/
structure GenEnv where
  secretsHaveKey : Bool
  extOutcome : Except Unit (List Char)
deriving DecidableEq

/-- Guard of the demo-mode branch:
`'ANTHROPIC_API_KEY' not in st.secrets and not st.session_state.get('anthropic_key')`
(a missing key and an empty-string key are both falsy). -/
def keyMissing (env : GenEnv) (anthropic_key : Option (List Char)) : Bool :=
  !env.secretsHaveKey &&
    (match anthropic_key with
     | none => true
     | some k => k.isEmpty)

/-- Embedding of `generate_integration_code(api_doc_url, auth_method)`.
With no credential it returns the demo result; otherwise the try block
either returns the external text with its extracted insights, or any
exception is caught and the demo result is returned.  The result is the
produced pair text-and-session-insights; `Except.error` would model an
uncaught exception and is never produced. -/
def generate_integration_code (env : GenEnv) (anthropic_key : Option (List Char))
    (api_doc_url auth_method : List Char) :
    Except Unit (List Char × List (List Char)) :=
  if keyMissing env anthropic_key then
    Except.ok (generate_demo_code api_doc_url auth_method)
  else
    match env.extOutcome with
    | Except.ok txt => Except.ok (txt, extract_insights txt api_doc_url)
    | Except.error _ => Except.ok (generate_demo_code api_doc_url auth_method)

/-- Session state of the Streamlit app (the fields initialised at the top of
the script, plus the optional interactively entered credential). -/
structure SessionState where
  step : Nat
  generated_code : Option (List Char)
  api_doc_url : List Char
  auth_method : List Char
  sandbox_passed : Bool
  ai_insights : List (List Char)
  anthropic_key : Option (List Char)
deriving DecidableEq

/-- Initial session state (`step = 1`, no code, empty URL, OAuth 2.0
preselected, sandbox not passed, no insights, no credential). -/
def initState : SessionState :=
  { step := 1
    generated_code := none
    api_doc_url := "".data
    auth_method := "OAuth 2.0".data
    sandbox_passed := false
    ai_insights := []
    anthropic_key := none }

/-- User-triggered actions: one per widget handler that mutates session
state.  `genRender` is the generation that runs when stage 2 is rendered;
its `GenEnv` carries the external-call outcome of that render. -/
inductive Act where
  | setUrl (u : List Char)
  | chooseOAuth
  | chooseAPIKey
  | chooseBearer
  | chooseAutoDetect
  | setKey (k : List Char)
  | configureForward
  | genRender (env : GenEnv)
  | reviewForward
  | back
  | sandboxForward
  | runTests
  | backToCode
  | deployForward
  | deployRun
  | reset
deriving DecidableEq

/-- Transition function of the workflow.  Each handler fires only in the
stage whose page renders it (otherwise the action is the identity); the
Deploy button additionally requires `sandbox_passed` (it is rendered
disabled otherwise), and the reset button only exists on the Deploy page. -/
def applyAct : Act → SessionState → SessionState
  | Act.setUrl u, s => if s.step = 1 then { s with api_doc_url := u } else s
  | Act.chooseOAuth, s => if s.step = 1 then { s with auth_method := "OAuth 2.0".data } else s
  | Act.chooseAPIKey, s => if s.step = 1 then { s with auth_method := "API Key".data } else s
  | Act.chooseBearer, s => if s.step = 1 then { s with auth_method := "Bearer Token".data } else s
  | Act.chooseAutoDetect, s => if s.step = 1 then { s with auth_method := "Auto-detect".data } else s
  | Act.setKey k, s => if k.isEmpty then s else { s with anthropic_key := some k }
  | Act.configureForward, s => if s.step = 1 then { s with step := 2 } else s
  | Act.genRender env, s =>
    if s.step = 2 then
      match generate_integration_code env s.anthropic_key s.api_doc_url s.auth_method with
      | Except.ok r => { s with generated_code := some r.1, ai_insights := r.2 }
      | Except.error _ => s
    else s
  | Act.reviewForward, s => if s.step = 2 then { s with step := 3 } else s
  | Act.back, s => if s.step = 3 then { s with step := 1 } else s
  | Act.sandboxForward, s => if s.step = 3 then { s with step := 4 } else s
  | Act.runTests, s => if s.step = 4 then { s with sandbox_passed := true } else s
  | Act.backToCode, s => if s.step = 4 then { s with step := 3 } else s
  | Act.deployForward, s =>
    if s.step = 4 ∧ s.sandbox_passed = true then { s with step := 5 } else s
  | Act.deployRun, s => s
  | Act.reset, s =>
    if s.step = 5 then
      { s with step := 1, generated_code := none, sandbox_passed := false }
    else s

/-- States reachable from the initial session state by user actions. -/
inductive Reach : SessionState → Prop where
  | init : Reach initState
  | next (s : SessionState) (a : Act) : Reach s → Reach (applyAct a s)

end CloudEagle

namespace CloudEagle

theorem isPrefixOf_self_append (n b : List Char) : n.isPrefixOf (n ++ b) = true := by
  induction n with
  | nil => cases b <;> rfl
  | cons c t ih => simp [List.isPrefixOf, ih]

theorem pyContains_append_left (x : List Char) {n t : List Char}
    (h : pyContains n t = true) : pyContains n (x ++ t) = true := by
  induction x with
  | nil => simpa using h
  | cons c xs ih =>
    simp only [List.cons_append, pyContains]
    rw [Bool.or_eq_true]
    exact Or.inr ih

theorem pyContains_self_append (n b : List Char) : pyContains n (n ++ b) = true := by
  cases n with
  | nil => cases b <;> simp [pyContains, List.isPrefixOf]
  | cons c t =>
    simp only [List.cons_append, pyContains]
    rw [Bool.or_eq_true]
    exact Or.inl (isPrefixOf_self_append (c :: t) b)

theorem pyLower_append (a b : List Char) :
    pyLower (a ++ b) = pyLower a ++ pyLower b := List.map_append _ _ _

theorem pyContains_take_of_middle (a n b : List Char) (k : Nat)
    (h : a.length + n.length ≤ k) :
    pyContains n ((a ++ (n ++ b)).take k) = true := by
  rw [List.take_append_eq_append_take, List.take_of_length_le (by omega),
    List.take_append_eq_append_take, List.take_of_length_le (by omega)]
  exact pyContains_append_left a (pyContains_self_append n _)

theorem pyContains_take_three (a b c n r : List Char) (k : Nat)
    (h : a.length + b.length + c.length + n.length ≤ k) :
    pyContains n ((a ++ (b ++ (c ++ (n ++ r)))).take k) = true := by
  have e : a ++ (b ++ (c ++ (n ++ r))) = (a ++ (b ++ c)) ++ (n ++ r) := by
    simp [List.append_assoc]
  rw [e]
  exact pyContains_take_of_middle _ _ _ _ (by simp only [List.length_append]; omega)

theorem demo_has_try : pyContains "try:".data demoCodeList = true := by
  unfold demoCodeList
  exact pyContains_append_left _ (pyContains_append_left _ (pyContains_append_left _
    (pyContains_append_left _ (pyContains_append_left _ (pyContains_self_append _ _)))))

theorem demo_has_except : pyContains "except".data demoCodeList = true := by
  unfold demoCodeList
  exact pyContains_append_left _ (pyContains_append_left _ (pyContains_append_left _
    (pyContains_append_left _ (pyContains_append_left _ (pyContains_append_left _
    (pyContains_append_left _ (pyContains_self_append _ _)))))))

theorem demo_has_429 : pyContains "429".data demoCodeList = true := by
  unfold demoCodeList
  exact pyContains_append_left _ (pyContains_append_left _ (pyContains_append_left _
    (pyContains_append_left _ (pyContains_append_left _ (pyContains_append_left _
    (pyContains_append_left _ (pyContains_append_left _ (pyContains_append_left _
    (pyContains_self_append _ _)))))))))

theorem demo_lower_has_logging :
    pyContains "logging".data (pyLower demoCodeList) = true := by
  unfold demoCodeList
  simp only [pyLower_append]
  apply pyContains_append_left
  have hl : pyLower "logging".data = "logging".data := by decide
  rw [hl]
  exact pyContains_self_append _ _

theorem demo_lower_has_pagination :
    pyContains "pagination".data (pyLower demoCodeList) = true := by
  unfold demoCodeList
  simp only [pyLower_append]
  apply pyContains_append_left
  apply pyContains_append_left
  apply pyContains_append_left
  apply pyContains_append_left
  apply pyContains_append_left
  apply pyContains_append_left
  apply pyContains_append_left
  apply pyContains_append_left
  apply pyContains_append_left
  apply pyContains_append_left
  apply pyContains_append_left
  have hl : pyLower "pagination".data = "pagination".data := by decide
  rw [hl]
  exact pyContains_self_append _ _

theorem demo_lower_has_hardcode :
    pyContains "hardcode".data (pyLower demoCodeList) = true := by
  unfold demoCodeList
  simp only [pyLower_append]
  apply pyContains_append_left
  apply pyContains_append_left
  apply pyContains_append_left
  apply pyContains_append_left
  apply pyContains_append_left
  apply pyContains_append_left
  apply pyContains_append_left
  apply pyContains_append_left
  apply pyContains_append_left
  apply pyContains_append_left
  apply pyContains_append_left
  apply pyContains_append_left
  apply pyContains_append_left
  have hl : pyLower "hardcode".data = "hardcode".data := by decide
  rw [hl]
  exact pyContains_self_append _ _

theorem demo_take_colon : pyContains ":".data (demoCodeList.take 1000) = true := by
  unfold demoCodeList
  exact pyContains_take_three _ _ _ _ _ 1000 (by decide)

theorem securityCheck_demo : securityCheck demoCodeList = false := by
  unfold securityCheck
  rw [demo_lower_has_hardcode]
  simp

theorem errorHandlingCheck_demo : errorHandlingCheck demoCodeList = true := by
  unfold errorHandlingCheck
  rw [demo_has_try, demo_has_except]
  rfl

theorem paginationCheck_demo : paginationCheck demoCodeList = true := by
  unfold paginationCheck
  rw [demo_lower_has_pagination]
  rfl

theorem rateLimitingCheck_demo : rateLimitingCheck demoCodeList = true := by
  unfold rateLimitingCheck
  rw [demo_has_429]
  exact Bool.or_true _

theorem loggingCheck_demo : loggingCheck demoCodeList = true := by
  unfold loggingCheck
  rw [demo_lower_has_logging]
  rfl

theorem bestPracticesCheck_demo : bestPracticesCheck demoCodeList = true := by
  unfold bestPracticesCheck
  rw [demo_take_colon]
  exact Bool.or_true _

end CloudEagle

namespace CloudEagle

theorem analyze_demo_eq : analyze_code_quality demoCodeList =
    ([("security".data, warnMark), ("error_handling".data, passMark),
      ("pagination".data, passMark), ("rate_limiting".data, passMark),
      ("logging".data, passMark), ("best_practices".data, passMark)], 25 / 3) := by
  have h1 : pyContains "✓".data passMark = true := by decide
  have h2 : pyContains "✓".data warnMark = false := by decide
  simp only [analyze_code_quality, securityCheck_demo, errorHandlingCheck_demo,
    paginationCheck_demo, rateLimitingCheck_demo, loggingCheck_demo,
    bestPracticesCheck_demo]
  simp only [Bool.false_eq_true, if_false, if_true, Prod.mk.injEq,
    List.countP_cons, List.countP_nil, h1, h2]
  norm_num

theorem analyze_score_eq (code : List Char) :
    ∃ p : Nat, p ≤ 6 ∧ (analyze_code_quality code).2 = ((p : ℚ) / 6) * 10 := by
  refine ⟨(analyze_code_quality code).1.countP (fun m => pyContains "✓".data m.2), ?_, ?_⟩
  · have h := List.countP_le_length (fun m => pyContains "✓".data m.2)
      (l := (analyze_code_quality code).1)
    have hlen : (analyze_code_quality code).1.length = 6 := by
      simp [analyze_code_quality]
    omega
  · rfl

end CloudEagle

namespace CloudEagle

theorem insCount_get2 (n : Nat) : (insCount n)[2]? = some 'F' := by
  unfold insCount
  have h8 : ("• Found ".data).length = 8 := by decide
  rw [List.getElem?_append_left (by rw [List.length_append, h8]; omega),
    List.getElem?_append_left (by omega)]
  decide

theorem insCount_ne_marker (n : Nat) :
    insCount n ≠ insOAuth ∧ insCount n ≠ insCursor ∧ insCount n ≠ insOffset ∧
      insCount n ≠ insRateLimit ∧ insCount n ≠ insRetry := by
  have h := insCount_get2 n
  refine ⟨?_, ?_, ?_, ?_, ?_⟩ <;> intro e <;> rw [e] at h <;> revert h <;> decide

theorem mem_ite_singleton {α : Type} {a x : α} {c : Prop} [Decidable c] :
    (a ∈ if c then [x] else []) ↔ c ∧ a = x := by
  split <;> simp_all

theorem sublist_cons_ite {α : Type} (c : Prop) [Decidable c] (x : α) {t L : List α}
    (h : List.Sublist t L) : List.Sublist ((if c then [x] else []) ++ t) (x :: L) := by
  split
  · exact List.Sublist.cons₂ x h
  · exact List.Sublist.cons x h

end CloudEagle

namespace CloudEagle

/-- Claim C6 (amended): each marker line is emitted exactly under the
condition the source implements — cursor, offset and retry are genuinely
case-insensitive substring searches; the oauth line requires one of the two
case-sensitive spellings "OAuth" or "oauth"; the rate-limit line fires on a
case-insensitive "rate_limit" or a case-sensitive "RateLimit" — and the
emitted lines always appear in the fixed check order {oauth, cursor, offset,
rate_limit, retry, method-count}, regardless of where markers occur: the
result is a sublist of that fixed sequence. -/
theorem extract_insights_spec (code api_url : List Char) :
    (insOAuth ∈ extract_insights code api_url ↔
      (pyContains "OAuth".data code || pyContains "oauth".data code) = true)
  ∧ (insCursor ∈ extract_insights code api_url ↔
      pyContains "cursor".data (pyLower code) = true)
  ∧ (insOffset ∈ extract_insights code api_url ↔
      pyContains "offset".data (pyLower code) = true)
  ∧ (insRateLimit ∈ extract_insights code api_url ↔
      (pyContains "rate_limit".data (pyLower code) ||
        pyContains "RateLimit".data code) = true)
  ∧ (insRetry ∈ extract_insights code api_url ↔
      pyContains "retry".data (pyLower code) = true)
  ∧ ∃ n : Nat, List.Sublist (extract_insights code api_url)
      [insOAuth, insCursor, insOffset, insRateLimit, insRetry, insCount n] := by
  refine ⟨?_, ?_, ?_, ?_, ?_, ?_⟩
  · simp only [extract_insights, List.mem_append, mem_ite_singleton]
    constructor
    · rintro (⟨h, -⟩ | ⟨-, h⟩ | ⟨-, h⟩ | ⟨-, h⟩ | ⟨-, h⟩ | ⟨-, h⟩)
      · exact h
      · exact absurd h (by decide)
      · exact absurd h (by decide)
      · exact absurd h (by decide)
      · exact absurd h (by decide)
      · exact ((insCount_ne_marker _).1 h.symm).elim
    · intro hc
      exact Or.inl ⟨hc, trivial⟩
  · simp only [extract_insights, List.mem_append, mem_ite_singleton]
    constructor
    · rintro (⟨-, h⟩ | ⟨h, -⟩ | ⟨-, h⟩ | ⟨-, h⟩ | ⟨-, h⟩ | ⟨-, h⟩)
      · exact absurd h (by decide)
      · exact h
      · exact absurd h (by decide)
      · exact absurd h (by decide)
      · exact absurd h (by decide)
      · exact ((insCount_ne_marker _).2.1 h.symm).elim
    · intro hc
      exact Or.inr (Or.inl ⟨hc, trivial⟩)
  · simp only [extract_insights, List.mem_append, mem_ite_singleton]
    constructor
    · rintro (⟨-, h⟩ | ⟨-, h⟩ | ⟨h, -⟩ | ⟨-, h⟩ | ⟨-, h⟩ | ⟨-, h⟩)
      · exact absurd h (by decide)
      · exact absurd h (by decide)
      · exact h
      · exact absurd h (by decide)
      · exact absurd h (by decide)
      · exact ((insCount_ne_marker _).2.2.1 h.symm).elim
    · intro hc
      exact Or.inr (Or.inr (Or.inl ⟨hc, trivial⟩))
  · simp only [extract_insights, List.mem_append, mem_ite_singleton]
    constructor
    · rintro (⟨-, h⟩ | ⟨-, h⟩ | ⟨-, h⟩ | ⟨h, -⟩ | ⟨-, h⟩ | ⟨-, h⟩)
      · exact absurd h (by decide)
      · exact absurd h (by decide)
      · exact absurd h (by decide)
      · exact h
      · exact absurd h (by decide)
      · exact ((insCount_ne_marker _).2.2.2.1 h.symm).elim
    · intro hc
      exact Or.inr (Or.inr (Or.inr (Or.inl ⟨hc, trivial⟩)))
  · simp only [extract_insights, List.mem_append, mem_ite_singleton]
    constructor
    · rintro (⟨-, h⟩ | ⟨-, h⟩ | ⟨-, h⟩ | ⟨-, h⟩ | ⟨h, -⟩ | ⟨-, h⟩)
      · exact absurd h (by decide)
      · exact absurd h (by decide)
      · exact absurd h (by decide)
      · exact absurd h (by decide)
      · exact h
      · exact ((insCount_ne_marker _).2.2.2.2 h.symm).elim
    · intro hc
      exact Or.inr (Or.inr (Or.inr (Or.inr (Or.inl ⟨hc, trivial⟩))))
  · refine ⟨pyCount "def get_".data code + pyCount "def list_".data code, ?_⟩
    simp only [extract_insights]
    apply sublist_cons_ite
    apply sublist_cons_ite
    apply sublist_cons_ite
    apply sublist_cons_ite
    apply sublist_cons_ite
    split
    · exact List.Sublist.refl _
    · exact List.nil_sublist _

end CloudEagle

namespace CloudEagle

/-- Claim C1: stage 5 is reachable only with a passed sandbox: in every
reachable state, step = 5 implies sandbox_passed = true; and at stage 4
without a passed sandbox the deploy transition is disabled — applying it
changes nothing. -/
theorem deploy_gate :
    (∀ s : SessionState, Reach s → s.step = 5 → s.sandbox_passed = true) ∧
    (∀ s : SessionState, s.step = 4 → s.sandbox_passed = false →
      applyAct Act.deployForward s = s) := by
  constructor
  · intro s hr
    induction hr with
    | init => intro h5; simp [initState] at h5
    | next s a hr ih =>
      cases a with
      | setUrl u => simp only [applyAct]; split_ifs <;> simpa using ih
      | chooseOAuth => simp only [applyAct]; split_ifs <;> simpa using ih
      | chooseAPIKey => simp only [applyAct]; split_ifs <;> simpa using ih
      | chooseBearer => simp only [applyAct]; split_ifs <;> simpa using ih
      | chooseAutoDetect => simp only [applyAct]; split_ifs <;> simpa using ih
      | setKey k => simp only [applyAct]; split_ifs <;> simpa using ih
      | configureForward =>
        simp only [applyAct]; split_ifs
        · intro h5; simp at h5
        · exact ih
      | genRender env =>
        simp only [applyAct]; split_ifs
        · cases generate_integration_code env s.anthropic_key s.api_doc_url s.auth_method with
          | ok r => simpa using ih
          | error e => exact ih
        · exact ih
      | reviewForward =>
        simp only [applyAct]; split_ifs
        · intro h5; simp at h5
        · exact ih
      | back =>
        simp only [applyAct]; split_ifs
        · intro h5; simp at h5
        · exact ih
      | sandboxForward =>
        simp only [applyAct]; split_ifs
        · intro h5; simp at h5
        · exact ih
      | runTests =>
        simp only [applyAct]; split_ifs
        · intro h5; rfl
        · exact ih
      | backToCode =>
        simp only [applyAct]; split_ifs
        · intro h5; simp at h5
        · exact ih
      | deployForward =>
        simp only [applyAct]; split_ifs with hg
        · intro h5; exact hg.2
        · exact ih
      | deployRun => simp only [applyAct]; exact ih
      | reset =>
        simp only [applyAct]; split_ifs
        · intro h5; simp at h5
        · exact ih
  · intro s h4 hsp
    simp [applyAct, hsp]

/-- Claim C9 (amended): the only actions that can decrease the step value
are the two Back buttons (Review to Configure, Sandbox to Review) and the
reset; every other action never decreases step. -/
theorem step_decrease_only (s : SessionState) (a : Act)
    (h : (applyAct a s).step < s.step) :
    a = Act.back ∨ a = Act.backToCode ∨ a = Act.reset := by
  cases a with
  | back => exact Or.inl rfl
  | backToCode => exact Or.inr (Or.inl rfl)
  | reset => exact Or.inr (Or.inr rfl)
  | setUrl u => exfalso; simp only [applyAct] at h; split_ifs at h <;> simp at h
  | chooseOAuth => exfalso; simp only [applyAct] at h; split_ifs at h <;> simp at h
  | chooseAPIKey => exfalso; simp only [applyAct] at h; split_ifs at h <;> simp at h
  | chooseBearer => exfalso; simp only [applyAct] at h; split_ifs at h <;> simp at h
  | chooseAutoDetect => exfalso; simp only [applyAct] at h; split_ifs at h <;> simp at h
  | setKey k => exfalso; simp only [applyAct] at h; split_ifs at h <;> simp at h
  | configureForward =>
    exfalso; simp only [applyAct] at h
    split_ifs at h with hg
    · simp at h; omega
    · simp at h
  | genRender env =>
    exfalso; simp only [applyAct] at h
    split_ifs at h
    · revert h
      cases generate_integration_code env s.anthropic_key s.api_doc_url s.auth_method with
      | ok r => intro h; simp at h
      | error e => intro h; simp at h
    · simp at h
  | reviewForward =>
    exfalso; simp only [applyAct] at h
    split_ifs at h with hg
    · simp at h; omega
    · simp at h
  | sandboxForward =>
    exfalso; simp only [applyAct] at h
    split_ifs at h with hg
    · simp at h; omega
    · simp at h
  | runTests => exfalso; simp only [applyAct] at h; split_ifs at h <;> simp at h
  | deployForward =>
    exfalso; simp only [applyAct] at h
    split_ifs at h with hg
    · obtain ⟨h4, -⟩ := hg; simp at h; omega
    · simp at h
  | deployRun => exact absurd h (lt_irrefl _)

/-- Claim C10: the two backward navigations change only the step field, and
sandbox_passed, once true, is preserved by every action except the reset. -/
theorem back_frame_sandbox_preserved :
    (∀ s : SessionState,
      (applyAct Act.back s).generated_code = s.generated_code ∧
      (applyAct Act.back s).sandbox_passed = s.sandbox_passed ∧
      (applyAct Act.back s).ai_insights = s.ai_insights ∧
      (applyAct Act.back s).api_doc_url = s.api_doc_url ∧
      (applyAct Act.back s).auth_method = s.auth_method ∧
      (applyAct Act.back s).anthropic_key = s.anthropic_key) ∧
    (∀ s : SessionState,
      (applyAct Act.backToCode s).generated_code = s.generated_code ∧
      (applyAct Act.backToCode s).sandbox_passed = s.sandbox_passed ∧
      (applyAct Act.backToCode s).ai_insights = s.ai_insights ∧
      (applyAct Act.backToCode s).api_doc_url = s.api_doc_url ∧
      (applyAct Act.backToCode s).auth_method = s.auth_method ∧
      (applyAct Act.backToCode s).anthropic_key = s.anthropic_key) ∧
    (∀ (s : SessionState) (a : Act), a ≠ Act.reset → s.sandbox_passed = true →
      (applyAct a s).sandbox_passed = true) := by
  refine ⟨?_, ?_, ?_⟩
  · intro s; simp only [applyAct]; split_ifs <;> simp
  · intro s; simp only [applyAct]; split_ifs <;> simp
  · intro s a hne hsp
    cases a with
    | reset => exact absurd rfl hne
    | genRender env =>
      simp only [applyAct]; split_ifs
      · cases generate_integration_code env s.anthropic_key s.api_doc_url s.auth_method with
        | ok r => simpa using hsp
        | error e => exact hsp
      · exact hsp
    | setUrl u => simp only [applyAct]; split_ifs <;> simpa using hsp
    | chooseOAuth => simp only [applyAct]; split_ifs <;> simpa using hsp
    | chooseAPIKey => simp only [applyAct]; split_ifs <;> simpa using hsp
    | chooseBearer => simp only [applyAct]; split_ifs <;> simpa using hsp
    | chooseAutoDetect => simp only [applyAct]; split_ifs <;> simpa using hsp
    | setKey k => simp only [applyAct]; split_ifs <;> simpa using hsp
    | configureForward => simp only [applyAct]; split_ifs <;> simpa using hsp
    | reviewForward => simp only [applyAct]; split_ifs <;> simpa using hsp
    | back => simp only [applyAct]; split_ifs <;> simpa using hsp
    | sandboxForward => simp only [applyAct]; split_ifs <;> simpa using hsp
    | runTests => simp only [applyAct]; split_ifs <;> simp [hsp]
    | backToCode => simp only [applyAct]; split_ifs <;> simpa using hsp
    | deployForward => simp only [applyAct]; split_ifs <;> simpa using hsp
    | deployRun => exact hsp

/-- Claim C4 (amended): on the Deploy page the reset action sets step to 1
and clears exactly generated_code and sandbox_passed; every other field —
in particular ai_insights, api_doc_url and auth_method — is left unchanged
(elsewhere the button is not rendered and nothing happens). -/
theorem reset_effect (s : SessionState) :
    (s.step = 5 → applyAct Act.reset s =
      { s with step := 1, generated_code := none, sandbox_passed := false }) ∧
    (s.step ≠ 5 → applyAct Act.reset s = s) := by
  constructor
  · intro h5; simp [applyAct, h5]
  · intro h5; simp [applyAct, h5]

/-- Claim C5 (amended): the Configure page forward button performs no
validation at all: whenever step = 1 it moves to step 2 and changes nothing
else, regardless of whether the doc URL is empty. -/
theorem configure_forward_unvalidated (s : SessionState) (h : s.step = 1) :
    applyAct Act.configureForward s = { s with step := 2 } := by
  simp [applyAct, h]

end CloudEagle

namespace CloudEagle

theorem demoCodeList_nonempty : demoCodeList ≠ [] := by decide

/-- Claim C2 (amended): generate_integration_code never propagates an
exception (it always returns a value); with no credential configured, or when
the external call raises, it returns the fixed non-empty fallback text; the
returned text can only be empty when a credential is configured and the
external call itself succeeds with empty text. -/
theorem generate_total_and_fallback (env : GenEnv) (key : Option (List Char))
    (url auth : List Char) :
    (∃ v, generate_integration_code env key url auth = Except.ok v) ∧
    (keyMissing env key = true →
      generate_integration_code env key url auth =
        Except.ok (demoCodeList, demoInsights)) ∧
    (∀ e : Unit, env.extOutcome = Except.error e →
      generate_integration_code env key url auth =
        Except.ok (demoCodeList, demoInsights)) ∧
    demoCodeList ≠ [] ∧
    (∀ v, generate_integration_code env key url auth = Except.ok v → v.1 = [] →
      keyMissing env key = false ∧ env.extOutcome = Except.ok []) := by
  refine ⟨?_, ?_, ?_, demoCodeList_nonempty, ?_⟩
  · unfold generate_integration_code
    split_ifs
    · exact ⟨_, rfl⟩
    · cases env.extOutcome with
      | ok txt => exact ⟨_, rfl⟩
      | error e => exact ⟨_, rfl⟩
  · intro hk
    simp [generate_integration_code, generate_demo_code, hk]
  · intro e he
    simp [generate_integration_code, generate_demo_code, he]
  · intro v hv hv1
    unfold generate_integration_code at hv
    by_cases hk : keyMissing env key = true
    · rw [if_pos hk] at hv
      simp only [generate_demo_code, Except.ok.injEq] at hv
      rw [← hv] at hv1
      exact absurd hv1 demoCodeList_nonempty
    · rw [if_neg hk] at hv
      constructor
      · simpa using hk
      · revert hv
        cases henv : env.extOutcome with
        | ok txt =>
          intro hv
          simp only [Except.ok.injEq] at hv
          rw [← hv] at hv1
          simp only at hv1
          rw [hv1]
        | error e2 =>
          intro hv
          simp only [generate_demo_code, Except.ok.injEq] at hv
          rw [← hv] at hv1
          exact absurd hv1 demoCodeList_nonempty

/-- Claim C2 counterexample: when a credential is configured and the external
call succeeds with empty text, generate returns that empty text — so the
claim that the result is always non-empty fails. -/
theorem generate_empty_success_text :
    generate_integration_code { secretsHaveKey := true, extOutcome := Except.ok [] }
      none [] [] = Except.ok ([], []) := by decide

/-- Witness for claim C2: the fallback branch at a concrete failing
environment returns the fixed demo result. -/
theorem generate_total_witness :
    generate_integration_code { secretsHaveKey := false, extOutcome := Except.error () }
      none [] [] = Except.ok (demoCodeList, demoInsights) :=
  (generate_total_and_fallback _ none [] []).2.1 (by decide)

/-- Claim C8: the Fallback Synthesizer ignores doc_url and auth_method (its
result is the same for all pairs of inputs), its stored insights are exactly
the four fixed fallback lines in order, and with no credential configured
generate returns exactly this fallback result. -/
theorem demo_mode_fixed :
    (∀ u a u2 a2 : List Char, generate_demo_code u a = generate_demo_code u2 a2) ∧
    (∀ u a : List Char, (generate_demo_code u a).2 =
      ["• Detected OAuth 2.0 with refresh token flow".data,
       "• Found 12 relevant endpoints for user data".data,
       "• Pagination uses cursor-based method".data,
       "• Rate limit: 500 requests/minute".data]) ∧
    (∀ (env : GenEnv) (key : Option (List Char)) (u a : List Char),
      keyMissing env key = true →
      generate_integration_code env key u a = Except.ok (generate_demo_code u a)) := by
  refine ⟨fun u a u2 a2 => rfl, fun u a => rfl, ?_⟩
  intro env key u a hk
  simp [generate_integration_code, hk]

/-- Witness for claim C8: demo mode at a concrete credential-free
environment returns the fallback result. -/
theorem demo_mode_fixed_witness :
    generate_integration_code { secretsHaveKey := false, extOutcome := Except.ok ['x'] }
      none ['u'] ['a'] = Except.ok (generate_demo_code ['u'] ['a']) :=
  demo_mode_fixed.2.2 _ none ['u'] ['a'] (by decide)

/-- Claim C3 (amended): on the exact fallback text the Quality Analyzer
reports Warning for security — the text contains the word "hardcode" (in the
comment "never hardcode!"), which the security check forbids — and Passed
for the other five checks, so the score is 25/3 (8.3), not 10.0. -/
theorem analyze_demo_result : analyze_code_quality demoCodeList =
    ([("security".data, warnMark), ("error_handling".data, passMark),
      ("pagination".data, passMark), ("rate_limiting".data, passMark),
      ("logging".data, passMark), ("best_practices".data, passMark)], 25 / 3) :=
  analyze_demo_eq

/-- Claim C3 counterexample: the score of the analyzer on the fallback text
is not 10. -/
theorem analyze_demo_not_ten : (analyze_code_quality demoCodeList).2 ≠ 10 := by
  rw [analyze_demo_eq]
  norm_num

/-- Claim C7: for every input text the score equals (passed / 6) × 10 for
some passed ≤ 6; hence 0 ≤ score ≤ 10 and the score is one of the seven
multiples of 10/6. -/
theorem score_bounds (code : List Char) :
    0 ≤ (analyze_code_quality code).2 ∧ (analyze_code_quality code).2 ≤ 10 ∧
      ∃ k : Nat, k ≤ 6 ∧ (analyze_code_quality code).2 = (k : ℚ) * (10 / 6) := by
  obtain ⟨p, hp, he⟩ := analyze_score_eq code
  have hc : (p : ℚ) ≤ 6 := by exact_mod_cast hp
  have h0 : (0 : ℚ) ≤ (p : ℚ) := Nat.cast_nonneg p
  refine ⟨?_, ?_, p, hp, ?_⟩
  · rw [he]; positivity
  · rw [he]; linarith
  · rw [he]; ring

/-- Claim C6 counterexample: in the text "OAUTH" the oauth marker occurs
ignoring case, yet extract_insights emits nothing — the oauth check only
accepts the two spellings "OAuth" and "oauth". -/
theorem extract_insights_counterexample :
    pyContains "oauth".data (pyLower "OAUTH".data) = true ∧
      extract_insights "OAUTH".data "".data = [] := by decide

/-- Witness for claim C1: a concrete run Configure → Generate → Review →
Sandbox → run tests → Deploy reaches step 5 with the sandbox passed, and at
step 4 before running tests the deploy button changes nothing. -/
theorem deploy_gate_witness :
    (applyAct Act.deployForward (applyAct Act.runTests (applyAct Act.sandboxForward
      (applyAct Act.reviewForward (applyAct Act.configureForward
        initState))))).sandbox_passed = true ∧
    applyAct Act.deployForward (applyAct Act.sandboxForward (applyAct Act.reviewForward
      (applyAct Act.configureForward initState))) =
      applyAct Act.sandboxForward (applyAct Act.reviewForward
        (applyAct Act.configureForward initState)) :=
  ⟨deploy_gate.1 _ (Reach.next _ _ (Reach.next _ _ (Reach.next _ _ (Reach.next _ _
      (Reach.next _ _ Reach.init))))) (by decide),
   deploy_gate.2 _ (by decide) (by decide)⟩

/-- Claim C9 counterexample: the Back button from Review is not the reset and
decreases step from 3 to 1. -/
theorem step_decrease_counterexample :
    Act.back ≠ Act.reset ∧
    (applyAct Act.back
      { step := 3, generated_code := none, api_doc_url := [], auth_method := [],
        sandbox_passed := false, ai_insights := [], anthropic_key := none }).step
      < 3 := by decide

/-- Witness for claim C9: the amended theorem applied to the concrete Back
transition at step 3. -/
theorem step_decrease_only_witness :
    Act.back = Act.back ∨ Act.back = Act.backToCode ∨ Act.back = Act.reset :=
  step_decrease_only
    { step := 3, generated_code := none, api_doc_url := [], auth_method := [],
      sandbox_passed := false, ai_insights := [], anthropic_key := none }
    Act.back (by decide)

/-- Witness for claim C10: navigating back from Sandbox at a concrete state
with sandbox_passed keeps sandbox_passed true. -/
theorem back_frame_witness :
    (applyAct Act.backToCode
      { step := 4, generated_code := some ['c'], api_doc_url := ['u'],
        auth_method := ['a'], sandbox_passed := true, ai_insights := [['i']],
        anthropic_key := none }).sandbox_passed = true :=
  back_frame_sandbox_preserved.2.2 _ Act.backToCode (by decide) (by decide)

/-- Claim C4 counterexample: resetting from a Deploy-page state with a
non-empty insight list leaves ai_insights unchanged and non-empty — the
reset does not clear it. -/
theorem reset_keeps_insights :
    (applyAct Act.reset
      { step := 5, generated_code := some ['c'], api_doc_url := ['u'],
        auth_method := ['a'], sandbox_passed := true, ai_insights := [['i']],
        anthropic_key := none }).ai_insights = [['i']] ∧
    ([['i']] : List (List Char)) ≠ [] := by decide

/-- Witness for claim C4: the amended reset effect at a concrete Deploy-page
state. -/
theorem reset_effect_witness :
    applyAct Act.reset
      { step := 5, generated_code := some ['c'], api_doc_url := ['u'],
        auth_method := ['a'], sandbox_passed := true, ai_insights := [['i']],
        anthropic_key := none } =
    { step := 1, generated_code := none, api_doc_url := ['u'],
      auth_method := ['a'], sandbox_passed := false, ai_insights := [['i']],
      anthropic_key := none } :=
  (reset_effect _).1 (by decide)

/-- Claim C5 counterexample: from the Configure page with an empty doc URL
the forward action still moves to step 2 — it is not rejected and there is
no ValidationError path in the code. -/
theorem configure_forward_counterexample :
    ({ step := 1, generated_code := none, api_doc_url := [],
       auth_method := "OAuth 2.0".data, sandbox_passed := false,
       ai_insights := [], anthropic_key := none } : SessionState).api_doc_url = [] ∧
    (applyAct Act.configureForward
      { step := 1, generated_code := none, api_doc_url := [],
        auth_method := "OAuth 2.0".data, sandbox_passed := false,
        ai_insights := [], anthropic_key := none }).step = 2 := by decide

/-- Witness for claim C5: the amended transition at a concrete empty-URL
state. -/
theorem configure_forward_witness :
    applyAct Act.configureForward
      { step := 1, generated_code := none, api_doc_url := [],
        auth_method := "OAuth 2.0".data, sandbox_passed := false,
        ai_insights := [], anthropic_key := none } =
    { step := 2, generated_code := none, api_doc_url := [],
      auth_method := "OAuth 2.0".data, sandbox_passed := false,
      ai_insights := [], anthropic_key := none } :=
  configure_forward_unvalidated _ (by decide)

end CloudEagle
